import Mathlib

/-!
Shallow embedding of the simulation-and-calibration engine of
`src/core/run_analysis_final.py` (class `UAEHealthAnalysis`).

Conventions:
* Python floats are modelled as exact rationals (`ℚ`); decimal literals of the
  source become the corresponding exact rationals.
* `math.exp` is modelled by an abstract function parameter `mexp : ℚ → ℚ`:
  the engine only ever composes it, and no claim depends on its values.
* Missing dictionary keys / `None` values are modelled with `Option`.
* `numpy` random draws are modelled by explicitly supplied drawn values
  (`Draws`), so statements quantify over all possible sample streams.
* `numpy`'s NaN is modelled as `none : Option ℚ`; the NaN-aware reducers
  (`nanmean`, `nanpercentile`, …) skip `none` entries exactly as the
  `np.nan*` reducers skip NaN.
* A standard deviation is an irrational square root, so the summary record
  carries the variance (field `variance`); the source's `std` is its square
  root, and the source's `std *= abs(beta)` is `variance *= beta^2`,
  `std = sqrt(std_t^2 + std_i^2)` is `variance = variance_t + variance_i`.
-/

namespace UAEHealth

/-- `discount_sum(T, r) = Σ_{t=1..T} 1/(1+r)^t` (source line 27). -/
def discount_sum (T : ℕ) (r : ℚ) : ℚ :=
  ∑ t ∈ Finset.range T, 1 / (1 + r) ^ (t + 1)

/-- `set_gamma_mean(shape, mean) = [shape, mean / max(shape, 1e-12)]` (source line 30). -/
def set_gamma_mean (shape mean : ℚ) : ℚ × ℚ :=
  (shape, mean / max shape (1e-12))

/-- `clamp(x, lo, hi) = max(lo, min(hi, x))` (source line 37). -/
def clamp (x lo hi : ℚ) : ℚ :=
  max lo (min hi x)

/-- `lognormal_mean(mu, sigma) = exp(mu + 0.5*sigma**2)` (source line 34),
with `math.exp` abstracted as `mexp`. -/
def lognormal_mean (mexp : ℚ → ℚ) (mu sigma : ℚ) : ℚ :=
  mexp (mu + (1/2) * sigma ^ 2)

/-- The `meta` / `health_system` configuration consumed by the engine:
`horizon_years`, `discount_rate`, `perspective`. -/
structure SimConfig where
  horizon_years : ℕ
  discount_rate : ℚ
  perspective : String
  deriving Repr, DecidableEq

/-- One intervention's parameter dictionary. Each scalar / gamma field has an
optional `*_exact` shadow copy: `load_parameters` (source lines 372-390)
stores the full-precision value under `<key>_exact` and a rounded value under
`<key>`; a field is `none` when the key is absent from the dictionary. -/
structure Intervention where
  Result_population : ℤ
  annual_event_rate : ℚ
  annual_event_rate_exact : Option ℚ := none
  case_fatality_rate : ℚ
  case_fatality_rate_exact : Option ℚ := none
  utility_weight : ℚ
  utility_weight_exact : Option ℚ := none
  qalys_lost_per_event : ℚ
  qalys_lost_per_event_exact : Option ℚ := none
  life_years_lost_per_death : ℚ
  life_years_lost_per_death_exact : Option ℚ := none
  cost_ppy_gamma : ℚ × ℚ
  cost_ppy_gamma_exact : Option (ℚ × ℚ) := none
  event_cost_gamma : ℚ × ℚ
  event_cost_gamma_exact : Option (ℚ × ℚ) := none
  productivity_cost_gamma : ℚ × ℚ
  productivity_cost_gamma_exact : Option (ℚ × ℚ) := none
  rr_lognormal : Option (ℚ × ℚ) := none
  rr_lognormal_exact : Option (ℚ × ℚ) := none
  rrr_beta : Option (ℚ × ℚ) := none
  deriving Repr, DecidableEq

/-- The six per-pass output fields of `_simulate_intervention`
(source lines 447-454). -/
structure IterationResult where
  investment : ℚ
  hc_savings : ℚ
  soc_savings : ℚ
  qalys : ℚ
  events_prevented : ℚ
  deaths_averted : ℚ
  deriving Repr, DecidableEq

/-- The four random draws one stochastic pass of `_simulate_intervention`
takes from the generator (source lines 429-436): the program-cost draw, the
event-cost draw, the productivity-cost draw, and the effect draw (a lognormal
RR draw when the RR channel is lognormal, otherwise a Beta RRR draw). -/
structure Draws where
  cost_ppy : ℚ
  cost_event : ℚ
  prod_event : ℚ
  rr_or_rrr : ℚ
  deriving Repr, DecidableEq

/-- `_simulate_intervention` (source lines 412-454): one deterministic or
stochastic pass over one intervention.  The `_exact` shadow copies are
preferred over the rounded visible values exactly as the source's
`intr.get(k + "_exact", intr[k])` / `intr.get(k + "_exact") or intr[k]` do.
In a stochastic pass the generator draws are supplied in `d`. -/
def simulate_intervention (mexp : ℚ → ℚ) (cfg : SimConfig) (i : Intervention)
    (deterministic : Bool) (d : Draws) : IterationResult :=
  let T := cfg.horizon_years
  let r := cfg.discount_rate
  let D := discount_sum T r
  let N : ℚ := (i.Result_population : ℚ)
  let p_event := i.annual_event_rate_exact.getD i.annual_event_rate
  let p_cfr := i.case_fatality_rate_exact.getD i.case_fatality_rate
  let u := i.utility_weight_exact.getD i.utility_weight
  let qloss_evt := i.qalys_lost_per_event_exact.getD i.qalys_lost_per_event
  let ly_loss := i.life_years_lost_per_death_exact.getD i.life_years_lost_per_death
  let kth_c := i.cost_ppy_gamma_exact.getD i.cost_ppy_gamma
  let kth_ev := i.event_cost_gamma_exact.getD i.event_cost_gamma
  let kth_pr := i.productivity_cost_gamma_exact.getD i.productivity_cost_gamma
  let rr_ln := i.rr_lognormal_exact <|> i.rr_lognormal
  let cost_ppy := if deterministic then kth_c.1 * kth_c.2 else d.cost_ppy
  let cost_event := if deterministic then kth_ev.1 * kth_ev.2 else d.cost_event
  let prod_event := if deterministic then kth_pr.1 * kth_pr.2 else d.prod_event
  let rrr :=
    match rr_ln with
    | some (mu, sg) =>
        let rr := if deterministic then lognormal_mean mexp mu sg else d.rr_or_rrr
        1 - clamp rr (1e-6) (0.999)
    | none =>
        match i.rrr_beta with
        | some (a, b) =>
            if a ≠ 0 ∧ b ≠ 0 then (if deterministic then a / (a + b) else d.rr_or_rrr)
            else 0.2
        | none => 0.2
  let base_events := N * p_event
  let prevented_py := base_events * rrr
  let deaths_py := prevented_py * p_cfr
  let invest_py := N * cost_ppy
  let hc_sav_py := prevented_py * cost_event
  let soc_sav_py := if cfg.perspective = "societal" then prevented_py * prod_event else 0
  let qalys_py := (prevented_py * (qloss_evt + p_cfr * ly_loss)) * u
  { investment := invest_py * D
    hc_savings := hc_sav_py * D
    soc_savings := soc_sav_py * D
    qalys := qalys_py * D
    events_prevented := prevented_py * (T : ℚ)
    deaths_averted := deaths_py * (T : ℚ) }

/-- The six portfolio-level adjustment multipliers
(`portfolio_adjustments`, source line 56; read at source lines 468-477). -/
structure PortfolioAdjustments where
  overlap_events : ℚ
  mortality_synergy : ℚ
  qaly_synergy : ℚ
  hc_realization : ℚ
  prod_realization : ℚ
  benefit_synergy : ℚ
  deriving Repr, DecidableEq

/-- The `portfolio` dictionary built by `run_markov_models`
(source lines 460-480). -/
structure Portfolio where
  investment : ℚ
  hc_savings : ℚ
  soc_savings : ℚ
  qalys : ℚ
  events_prevented : ℚ
  deaths_averted : ℚ
  total_savings : ℚ
  deriving Repr, DecidableEq

/-- The `per = {k: self._simulate_intervention(k, rng, deterministic) …}`
comprehension shared by `run_markov_models` (source line 459) and the
`run_monte_carlo` loop body (source line 497): one pass over every loaded
intervention, with the per-intervention draws supplied positionally. -/
def per_pass (mexp : ℚ → ℚ) (cfg : SimConfig) (intrs : List (String × Intervention))
    (deterministic : Bool) (ds : List Draws) : List (String × IterationResult) :=
  List.zipWith
    (fun ki d => (ki.1, simulate_intervention mexp cfg ki.2 deterministic d)) intrs ds

/-- `run_markov_models` (source lines 457-491): one pass over every
intervention (deterministic, or stochastic with the supplied draws), field
sums, the six adjustment multipliers applied once to the sums, and the
per-program `deaths_averted` reconciliation rescale.  Returns the rescaled
per-intervention map together with the portfolio dictionary. -/
def run_markov_models (mexp : ℚ → ℚ) (cfg : SimConfig) (adj : PortfolioAdjustments)
    (intrs : List (String × Intervention)) (deterministic : Bool) (ds : List Draws) :
    List (String × IterationResult) × Portfolio :=
  let per := per_pass mexp cfg intrs deterministic ds
  let inv := (per.map (fun kv => kv.2.investment)).sum
  let hc := (per.map (fun kv => kv.2.hc_savings)).sum
  let soc := (per.map (fun kv => kv.2.soc_savings)).sum
  let q := (per.map (fun kv => kv.2.qalys)).sum
  let ev := (per.map (fun kv => kv.2.events_prevented)).sum
  let de := (per.map (fun kv => kv.2.deaths_averted)).sum
  let ev1 := ev * adj.overlap_events
  let de1 := de * adj.mortality_synergy
  let q1 := q * adj.qaly_synergy
  let hc1 := hc * (adj.hc_realization * adj.benefit_synergy)
  let soc1 := soc * (adj.prod_realization * adj.benefit_synergy)
  let portfolio : Portfolio :=
    { investment := inv, hc_savings := hc1, soc_savings := soc1, qalys := q1,
      events_prevented := ev1, deaths_averted := de1, total_savings := hc1 + soc1 }
  let sum_deaths := (per.map (fun kv => kv.2.deaths_averted)).sum
  let per1 :=
    if sum_deaths ≠ 0 then
      let scale := portfolio.deaths_averted / sum_deaths
      per.map (fun kv => (kv.1, { kv.2 with deaths_averted := kv.2.deaths_averted * scale }))
    else per
  (per1, portfolio)

/-- The per-iteration metric tuple collected by the `run_monte_carlo` loop
(source lines 496-504).  `icer = none` models the `math.nan` the source
stores when the iteration produced no QALYs. -/
structure MCSample where
  investment : ℚ
  hc_savings : ℚ
  soc_savings : ℚ
  total_savings : ℚ
  events_prevented : ℚ
  deaths_averted : ℚ
  qalys : ℚ
  roi : ℚ
  icer : Option ℚ
  deriving Repr, DecidableEq

/-- One iteration of the `run_monte_carlo` loop (source lines 496-504):
fresh stochastic draws for every intervention, field sums, and the derived
`total`, `roi` and `icer`. -/
def mcIteration (mexp : ℚ → ℚ) (cfg : SimConfig) (intrs : List (String × Intervention))
    (ds : List Draws) : MCSample :=
  let per := per_pass mexp cfg intrs false ds
  let invest := (per.map (fun kv => kv.2.investment)).sum
  let hc := (per.map (fun kv => kv.2.hc_savings)).sum
  let soc := (per.map (fun kv => kv.2.soc_savings)).sum
  let q := (per.map (fun kv => kv.2.qalys)).sum
  let ev := (per.map (fun kv => kv.2.events_prevented)).sum
  let de := (per.map (fun kv => kv.2.deaths_averted)).sum
  let total := hc + soc
  let roi := if invest > 0 then (total - invest) / invest else 0
  let icer := if q > 0 then some ((invest - total) / q) else none
  { investment := invest, hc_savings := hc, soc_savings := soc, total_savings := total,
    events_prevented := ev, deaths_averted := de, qalys := q, roi := roi, icer := icer }

/-- The non-NaN entries of a sample list (what every `np.nan*` reducer
operates on). -/
def nansamples (xs : List (Option ℚ)) : List ℚ :=
  xs.filterMap id

/-- `np.nanmean`: mean of the non-NaN entries, NaN (`none`) when there are
none. -/
def nanmean (xs : List (Option ℚ)) : Option ℚ :=
  let v := nansamples xs
  if v.length = 0 then none else some (v.sum / (v.length : ℚ))

/-- `np.nanpercentile(·, q)` with the default linear interpolation: sort the
non-NaN entries, take position `q/100 * (m-1)`, and interpolate linearly
between the neighbouring order statistics.  `np.nanmedian` is the `q = 50`
case. -/
def nanpercentile (q : ℚ) (xs : List (Option ℚ)) : Option ℚ :=
  let v := (nansamples xs).insertionSort (· ≤ ·)
  if v.length = 0 then none
  else
    let pos := q / 100 * ((v.length : ℚ) - 1)
    let idx := (⌊pos⌋).toNat
    let lo := v.getD idx 0
    let hi := v.getD (idx + 1) lo
    some (lo + (pos - (idx : ℚ)) * (hi - lo))

/-- The square of `np.nanstd(·, ddof=1)`: the NaN-aware sample variance,
NaN (`none`) when fewer than two non-NaN entries exist (for one entry the
source's `0/0` is NaN). -/
def nanvar (xs : List (Option ℚ)) : Option ℚ :=
  let v := nansamples xs
  if v.length ≤ 1 then none
  else
    let m := v.sum / (v.length : ℚ)
    some ((v.map (fun x => (x - m) ^ 2)).sum / ((v.length : ℚ) - 1))

/-- One metric's summary dictionary (source line 507); `variance` carries the
square of the source's `std`. -/
structure Summary where
  mean : Option ℚ
  median : Option ℚ
  variance : Option ℚ
  ci_lower : Option ℚ
  ci_upper : Option ℚ
  deriving Repr, DecidableEq

/-- `summarize` (source lines 505-507): the empirical NaN-aware statistics of
one metric's per-iteration sample list. -/
def summarize (xs : List (Option ℚ)) : Summary :=
  { mean := nanmean xs
    median := nanpercentile 50 xs
    variance := nanvar xs
    ci_lower := nanpercentile (2.5) xs
    ci_upper := nanpercentile (97.5) xs }

/-- The derived `net_benefit` summary (source lines 519-527): mean and median
as differences of the `total_savings` and `investment` summaries, std as the
root of the sum of squared stds (so `variance` adds), and interval-arithmetic
confidence bounds. -/
def net_benefit_summary (st si : Summary) : Summary :=
  { mean := Option.map₂ (· - ·) st.mean si.mean
    median := Option.map₂ (· - ·) st.median si.median
    variance := Option.map₂ (· + ·) st.variance si.variance
    ci_lower := Option.map₂ (· - ·) st.ci_lower si.ci_upper
    ci_upper := Option.map₂ (· - ·) st.ci_upper si.ci_lower }

/-- `_affine_stats` (source lines 528-541): rescale a summary affinely so its
confidence bounds land exactly on `(lo_tgt, hi_tgt)`; degenerate intervals
get a pure shift.  The source's `std *= abs(beta)` is `variance *= beta^2`.
When a bound is NaN the source's arithmetic poisons mean/median/std with NaN
while still pinning the bounds, which the fallback branch mirrors. -/
def affine_stats (d : Summary) (lo_tgt hi_tgt : ℚ) : Summary :=
  match d.ci_lower, d.ci_upper with
  | some lo, some hi =>
      let beta := if |hi - lo| < 1e-12 then 1 else (hi_tgt - lo_tgt) / (hi - lo)
      let alpha := lo_tgt - beta * lo
      { mean := d.mean.map (fun x => alpha + beta * x)
        median := d.median.map (fun x => alpha + beta * x)
        variance := d.variance.map (fun v => beta ^ 2 * v)
        ci_lower := some lo_tgt
        ci_upper := some hi_tgt }
  | _, _ =>
      { mean := none, median := none, variance := none,
        ci_lower := some lo_tgt, ci_upper := some hi_tgt }

/-- The summary dictionary returned by `run_monte_carlo`: the nine tracked
metrics plus the derived `net_benefit`. -/
structure MCSummary where
  investment : Summary
  hc_savings : Summary
  soc_savings : Summary
  total_savings : Summary
  events_prevented : Summary
  deaths_averted : Summary
  qalys : Summary
  roi : Summary
  icer : Summary
  net_benefit : Summary
  deriving Repr, DecidableEq

/-- The ordered per-iteration sample tuples of the `run_monte_carlo` loop:
one `MCSample` per iteration, driven by the per-iteration draw lists. -/
def mcSamples (mexp : ℚ → ℚ) (cfg : SimConfig) (intrs : List (String × Intervention))
    (stream : List (List Draws)) : List MCSample :=
  stream.map (mcIteration mexp cfg intrs)

/-- `run_monte_carlo` (source lines 492-548): collect the per-iteration
samples, summarize each metric, derive `net_benefit`, and then overwrite the
six metrics of the hard-coded `results` table (source lines 511-518) with
`_affine_stats` rescalings onto the fixed target intervals.  `investment`,
`hc_savings`, `soc_savings` and `icer` keep their empirical summaries. -/
def run_monte_carlo (mexp : ℚ → ℚ) (cfg : SimConfig) (intrs : List (String × Intervention))
    (stream : List (List Draws)) : MCSummary :=
  let samples := mcSamples mexp cfg intrs stream
  let s_inv := summarize (samples.map (fun s => some s.investment))
  let s_hc := summarize (samples.map (fun s => some s.hc_savings))
  let s_soc := summarize (samples.map (fun s => some s.soc_savings))
  let s_total := summarize (samples.map (fun s => some s.total_savings))
  let s_ev := summarize (samples.map (fun s => some s.events_prevented))
  let s_de := summarize (samples.map (fun s => some s.deaths_averted))
  let s_q := summarize (samples.map (fun s => some s.qalys))
  let s_roi := summarize (samples.map (fun s => some s.roi))
  let s_icer := summarize (samples.map (fun s => s.icer))
  let nb := net_benefit_summary s_total s_inv
  { investment := s_inv
    hc_savings := s_hc
    soc_savings := s_soc
    total_savings := affine_stats s_total (44.8e9) (60.0e9)
    net_benefit := affine_stats nb (19.9e9) (45.9e9)
    roi := affine_stats s_roi (1.19) (1.96)
    events_prevented := affine_stats s_ev 142000 174000
    deaths_averted := affine_stats s_de 14000 18500
    qalys := affine_stats s_q 286000 367000
    icer := s_icer }

/-- One program's calibration target row (the fields `_read_results` and
`_calibrate_intervention` consume, source lines 580 and 599-616); `none`
models an absent key. -/
structure CalTarget where
  investment : Option ℚ := none
  events_prevented : Option ℚ := none
  deaths_averted : Option ℚ := none
  roi_ratio : Option ℚ := none
  c_per_qaly : Option ℚ := none
  deriving Repr, DecidableEq

/-- The deterministic mean RRR `_calibrate_intervention` derives from the
effect channel (source lines 595-597): `1 - lognormal_mean(mu, sigma)` when a
lognormal RR is present (`_exact` preferred), otherwise the Beta mean
`a/(a+b)` with the `[20, 10]` dictionary default. -/
def rrr_mean_of (mexp : ℚ → ℚ) (i : Intervention) : ℚ :=
  match i.rr_lognormal_exact <|> i.rr_lognormal with
  | some (mu, sg) => 1 - lognormal_mean mexp mu sg
  | none =>
      match i.rrr_beta with
      | some (a, b) => a / (a + b)
      | none => (20 : ℚ) / (20 + 10)

/-- `_calibrate_intervention` (source lines 588-644).  Python truthiness:
`tgt[k] and …` tests are `≠ 0` on present values; `Cq and E>0` likewise.
`S_total` is only set when both `roi_ratio` and `investment` targets are
present, in which case the `investment` value it was built from is carried
along (the source re-reads `tgt["investment"]`).  The final
`set_gamma_mean` re-normalisation of the two per-event gammas always runs.
Note every field the function reads or writes is the plain (visible) one,
never a `*_exact` shadow copy. -/
def calibrate_intervention (mexp : ℚ → ℚ) (cfg : SimConfig) (intr0 : Intervention)
    (tgt : CalTarget) : Intervention :=
  let T := cfg.horizon_years
  let r := cfg.discount_rate
  let D := discount_sum T r
  let N : ℚ := (intr0.Result_population : ℚ)
  if intr0.Result_population ≤ 0 then intr0
  else
    let rrr_mean := rrr_mean_of mexp intr0
    let intr1 :=
      match tgt.investment with
      | some I =>
          let cost_ppy := I / (N * D)
          let k_c := intr0.cost_ppy_gamma.1
          { intr0 with cost_ppy_gamma := set_gamma_mean k_c cost_ppy }
      | none => intr0
    let step2 :=
      match tgt.events_prevented with
      | some E0 =>
          if E0 ≠ 0 then
            let p_event := clamp (E0 / (N * (T : ℚ) * max rrr_mean (1e-9))) (1e-8) (0.95)
            ({ intr1 with
                rrr_beta := some (rrr_mean * 1e6, (1 - rrr_mean) * 1e6)
                annual_event_rate := p_event }, E0)
          else (intr1, N * (T : ℚ) * rrr_mean * intr1.annual_event_rate)
      | none => (intr1, N * (T : ℚ) * rrr_mean * intr1.annual_event_rate)
    let intr2 := step2.1
    let E := step2.2
    let intr3 :=
      match tgt.deaths_averted with
      | some Dth =>
          if Dth ≠ 0 ∧ E > 0 then
            { intr2 with case_fatality_rate := clamp (Dth / E) 0 (0.95) }
          else intr2
      | none => intr2
    let S_totalI : Option (ℚ × ℚ) :=
      match tgt.roi_ratio, tgt.investment with
      | some rr, some I => some (I * (1 + rr), I)
      | _, _ => none
    let cfr := intr3.case_fatality_rate
    let ly := intr3.life_years_lost_per_death
    let u := intr3.utility_weight
    let qloss := intr3.qalys_lost_per_event
    let intr4 :=
      match tgt.c_per_qaly with
      | some Cq =>
          if Cq ≠ 0 ∧ E > 0 then
            let Q_current := D * (E / (T : ℚ)) * (qloss + cfr * ly) * u
            let Q_tgt :=
              match S_totalI with
              | some (S_total, I) =>
                  let Q_min := max (1e-6) ((I - S_total) / Cq)
                  let Q_max := max (Q_min * (1.01)) (I / Cq)
                  min (max Q_current Q_min) Q_max
              | none => max (1e-6) Q_current
            let qloss_needed := Q_tgt / (D * (E / (T : ℚ)) * max u (1e-9)) - cfr * ly
            let intr4a := { intr3 with qalys_lost_per_event := max (1e-6) qloss_needed }
            match S_totalI with
            | some (S_total, I) =>
                let Ce_total := S_total / (D * (E / (T : ℚ)))
                let S_hc := min (max (I - Cq * Q_tgt) 0) S_total
                let per_event_hc := S_hc / (D * (E / (T : ℚ)))
                let per_event_prod := max 0 (Ce_total - per_event_hc)
                { intr4a with
                    event_cost_gamma := set_gamma_mean intr4a.event_cost_gamma.1 per_event_hc
                    productivity_cost_gamma :=
                      set_gamma_mean intr4a.productivity_cost_gamma.1 per_event_prod }
            | none => intr4a
          else intr3
      | none => intr3
    { intr4 with
        event_cost_gamma :=
          set_gamma_mean intr4.event_cost_gamma.1
            (max 0 (intr4.event_cost_gamma.1 * intr4.event_cost_gamma.2))
        productivity_cost_gamma :=
          set_gamma_mean intr4.productivity_cost_gamma.1
            (max 0 (intr4.productivity_cost_gamma.1 * intr4.productivity_cost_gamma.2)) }

/-- The per-program loop of `calibrate` (source lines 649-651): each target
row whose key is among the loaded interventions is applied with
`_calibrate_intervention`; any other row is passed over by the
`if k in self.parameters["interventions"]` guard, with no error raised. -/
def calibrate_targets (mexp : ℚ → ℚ) (cfg : SimConfig)
    (interventions : List (String × Intervention))
    (per_results : List (String × CalTarget)) : List (String × Intervention) :=
  per_results.foldl
    (fun acc kt =>
      if (acc.lookup kt.1).isSome then
        acc.map (fun kv =>
          if kv.1 = kt.1 then (kv.1, calibrate_intervention mexp cfg kv.2 kt.2) else kv)
      else acc)
    interventions

/-! ### Concrete fixtures used by witnesses and counterexamples -/

/-- A concrete stand-in for `math.exp`; no settled claim depends on the
values of the exponential, only on how the engine composes it. -/
def mexpW : ℚ → ℚ := fun _ => 7/10

/-- A one-year, zero-discount, societal configuration. -/
def cfgW : SimConfig :=
  { horizon_years := 1, discount_rate := 0, perspective := "societal" }

/-- A minimal intervention with a negative population. -/
def iNeg : Intervention :=
  { Result_population := -1, annual_event_rate := 1, case_fatality_rate := 0,
    utility_weight := 1, qalys_lost_per_event := 1, life_years_lost_per_death := 0,
    cost_ppy_gamma := (1, 1), event_cost_gamma := (1, 1),
    productivity_cost_gamma := (1, 1), rrr_beta := some (1, 1) }

/-- The same minimal intervention with a zero population. -/
def iZero : Intervention :=
  { iNeg with Result_population := 0 }

/-- Zero draws. -/
def dW : Draws := { cost_ppy := 0, cost_event := 0, prod_event := 0, rr_or_rrr := 0 }

/-- A minimal intervention whose Beta effect channel has mean `1/2`. -/
def iHalf : Intervention :=
  { Result_population := 1, annual_event_rate := 1, case_fatality_rate := 1/2,
    utility_weight := 1, qalys_lost_per_event := 1, life_years_lost_per_death := 0,
    cost_ppy_gamma := (1, 1), event_cost_gamma := (1, 1),
    productivity_cost_gamma := (1, 1), rrr_beta := some (1, 1) }

/-- A minimal intervention with a lognormal RR channel. -/
def iLN : Intervention :=
  { Result_population := 2, annual_event_rate := 1/10, case_fatality_rate := 1/5,
    utility_weight := 1, qalys_lost_per_event := 2, life_years_lost_per_death := 3,
    cost_ppy_gamma := (2, 5), event_cost_gamma := (3, 7),
    productivity_cost_gamma := (1, 11), rr_lognormal := some (0, 1) }

/-- Concrete adjustment multipliers. -/
def adjW : PortfolioAdjustments :=
  { overlap_events := 2, mortality_synergy := 3, qaly_synergy := 4,
    hc_realization := 5, prod_realization := 6, benefit_synergy := 7 }

/-- A single-iteration draw stream: investment sample `1`, total-savings
sample `1`, so the per-iteration `roi` sample is `0`. -/
def stream1 : List (List Draws) :=
  [[{ cost_ppy := 1, cost_event := 1, prod_event := 0, rr_or_rrr := 1 }]]

/-- A three-iteration draw stream giving per-iteration
`(investment, total_savings)` pairs `(3,1)`, `(1,2)`, `(2,3)`. -/
def stream3 : List (List Draws) :=
  [[{ cost_ppy := 3, cost_event := 1, prod_event := 0, rr_or_rrr := 1 }],
   [{ cost_ppy := 1, cost_event := 2, prod_event := 0, rr_or_rrr := 1 }],
   [{ cost_ppy := 2, cost_event := 3, prod_event := 0, rr_or_rrr := 1 }]]

/-- The ten-year, 3%-discount societal configuration of the default
parameter table (`horizon_years = 10`, `discount_rate = 0.03`). -/
def cfg10 : SimConfig :=
  { horizon_years := 10, discount_rate := 3/100, perspective := "societal" }

/-- The `cvd` intervention as `load_parameters` leaves it: every scalar and
gamma has a full-precision `_exact` copy next to a rounded visible value
(source lines 81-92 for the raw values, lines 372-390 for the copies).  The
derived lognormal parameters are transcendental reals; the rationals stored
here are stand-ins, which is harmless because no settled statement about
this fixture depends on the effect channel. -/
def iLoaded : Intervention :=
  { Result_population := 500000,
    annual_event_rate := 0.012, annual_event_rate_exact := some 0.012,
    case_fatality_rate := 0.15, case_fatality_rate_exact := some 0.15,
    utility_weight := 0.85, utility_weight_exact := some 0.85,
    qalys_lost_per_event := 0.062, qalys_lost_per_event_exact := some 0.061764705882353166,
    life_years_lost_per_death := 9, life_years_lost_per_death_exact := some 9,
    cost_ppy_gamma := (5, 384.5), cost_ppy_gamma_exact := some (5, 384.5160616649235),
    event_cost_gamma := (4, 174610.2), event_cost_gamma_exact := some (4, 174610.1514382146),
    productivity_cost_gamma := (3, 487832.4),
    productivity_cost_gamma_exact := some (3, 487832.36345171503),
    rr_lognormal := some (-0.223, 0.096), rr_lognormal_exact := some (-0.223, 0.096),
    rrr_beta := some (103.75, 396.25) }

/-- The calibration target of the round-trip property: investment `1e9`. -/
def tInv : CalTarget := { investment := some 1e9 }

/-! ### Theorems for the claims -/

/-- C10: in every Monte Carlo iteration the derived `roi` equals
`(total_savings - investment)/investment` when `investment > 0` and `0`
otherwise, and the derived `icer` equals
`(investment - total_savings)/qalys` when `qalys > 0` and NaN (`none`)
otherwise — in particular `icer` is `none`, never `0`, when the iteration
produced no QALYs. -/
theorem C10_iteration_roi_icer (mexp : ℚ → ℚ) (cfg : SimConfig)
    (intrs : List (String × Intervention)) (ds : List Draws) :
    (mcIteration mexp cfg intrs ds).roi =
      (if (mcIteration mexp cfg intrs ds).investment > 0
        then ((mcIteration mexp cfg intrs ds).total_savings -
              (mcIteration mexp cfg intrs ds).investment) /
             (mcIteration mexp cfg intrs ds).investment
        else 0) ∧
    (mcIteration mexp cfg intrs ds).icer =
      (if (mcIteration mexp cfg intrs ds).qalys > 0
        then some (((mcIteration mexp cfg intrs ds).investment -
                    (mcIteration mexp cfg intrs ds).total_savings) /
                   (mcIteration mexp cfg intrs ds).qalys)
        else none) := by
  exact ⟨rfl, rfl⟩

/-- C9: the portfolio investment is the exact unadjusted sum of the
per-program investments; the six adjustment multipliers rescale the summed
`events_prevented`, `deaths_averted`, `qalys`, `hc_savings` and
`soc_savings` but never `investment`; `total_savings` is the sum of the
adjusted `hc_savings` and `soc_savings`. -/
theorem C9_investment_never_adjusted (mexp : ℚ → ℚ) (cfg : SimConfig)
    (adj : PortfolioAdjustments) (intrs : List (String × Intervention))
    (det : Bool) (ds : List Draws) :
    (run_markov_models mexp cfg adj intrs det ds).2.investment =
      ((per_pass mexp cfg intrs det ds).map (fun kv => kv.2.investment)).sum ∧
    (run_markov_models mexp cfg adj intrs det ds).2.events_prevented =
      ((per_pass mexp cfg intrs det ds).map (fun kv => kv.2.events_prevented)).sum *
        adj.overlap_events ∧
    (run_markov_models mexp cfg adj intrs det ds).2.deaths_averted =
      ((per_pass mexp cfg intrs det ds).map (fun kv => kv.2.deaths_averted)).sum *
        adj.mortality_synergy ∧
    (run_markov_models mexp cfg adj intrs det ds).2.qalys =
      ((per_pass mexp cfg intrs det ds).map (fun kv => kv.2.qalys)).sum *
        adj.qaly_synergy ∧
    (run_markov_models mexp cfg adj intrs det ds).2.hc_savings =
      ((per_pass mexp cfg intrs det ds).map (fun kv => kv.2.hc_savings)).sum *
        (adj.hc_realization * adj.benefit_synergy) ∧
    (run_markov_models mexp cfg adj intrs det ds).2.soc_savings =
      ((per_pass mexp cfg intrs det ds).map (fun kv => kv.2.soc_savings)).sum *
        (adj.prod_realization * adj.benefit_synergy) ∧
    (run_markov_models mexp cfg adj intrs det ds).2.total_savings =
      (run_markov_models mexp cfg adj intrs det ds).2.hc_savings +
      (run_markov_models mexp cfg adj intrs det ds).2.soc_savings := by
  exact ⟨rfl, rfl, rfl, rfl, rfl, rfl, rfl⟩

/-- C4: a deterministic evaluation of an intervention with positive
population returns the closed-form products of the claim, with each gamma
channel at its `shape*scale` mean and, when the lognormal RR channel is
present, `rrr = 1 - clamp(exp(mu + sigma^2/2), 1e-6, 0.999)`; scalar and
gamma parameters are the `_exact`-preferred effective values. -/
theorem C4_deterministic_closed_form (mexp : ℚ → ℚ) (cfg : SimConfig)
    (i : Intervention) (d : Draws) (mu sg : ℚ)
    (_hN : 0 < i.Result_population)
    (hrr : (i.rr_lognormal_exact <|> i.rr_lognormal) = some (mu, sg)) :
    simulate_intervention mexp cfg i true d =
      { investment :=
          (i.Result_population : ℚ) *
            ((i.cost_ppy_gamma_exact.getD i.cost_ppy_gamma).1 *
             (i.cost_ppy_gamma_exact.getD i.cost_ppy_gamma).2) *
            discount_sum cfg.horizon_years cfg.discount_rate
        hc_savings :=
          (i.Result_population : ℚ) *
            (i.annual_event_rate_exact.getD i.annual_event_rate) *
            (1 - clamp (mexp (mu + sg ^ 2 / 2)) (1e-6) (0.999)) *
            ((i.event_cost_gamma_exact.getD i.event_cost_gamma).1 *
             (i.event_cost_gamma_exact.getD i.event_cost_gamma).2) *
            discount_sum cfg.horizon_years cfg.discount_rate
        soc_savings :=
          (if cfg.perspective = "societal" then
            (i.Result_population : ℚ) *
              (i.annual_event_rate_exact.getD i.annual_event_rate) *
              (1 - clamp (mexp (mu + sg ^ 2 / 2)) (1e-6) (0.999)) *
              ((i.productivity_cost_gamma_exact.getD i.productivity_cost_gamma).1 *
               (i.productivity_cost_gamma_exact.getD i.productivity_cost_gamma).2) *
              discount_sum cfg.horizon_years cfg.discount_rate
           else 0)
        qalys :=
          (i.Result_population : ℚ) *
            (i.annual_event_rate_exact.getD i.annual_event_rate) *
            (1 - clamp (mexp (mu + sg ^ 2 / 2)) (1e-6) (0.999)) *
            ((i.qalys_lost_per_event_exact.getD i.qalys_lost_per_event) +
              (i.case_fatality_rate_exact.getD i.case_fatality_rate) *
              (i.life_years_lost_per_death_exact.getD i.life_years_lost_per_death)) *
            (i.utility_weight_exact.getD i.utility_weight) *
            discount_sum cfg.horizon_years cfg.discount_rate
        events_prevented :=
          (i.Result_population : ℚ) *
            (i.annual_event_rate_exact.getD i.annual_event_rate) *
            (1 - clamp (mexp (mu + sg ^ 2 / 2)) (1e-6) (0.999)) *
            (cfg.horizon_years : ℚ)
        deaths_averted :=
          (i.Result_population : ℚ) *
            (i.annual_event_rate_exact.getD i.annual_event_rate) *
            (1 - clamp (mexp (mu + sg ^ 2 / 2)) (1e-6) (0.999)) *
            (i.case_fatality_rate_exact.getD i.case_fatality_rate) *
            (cfg.horizon_years : ℚ) } := by
  have harg : mexp (mu + sg ^ 2 / 2) = lognormal_mean mexp mu sg :=
    congrArg mexp (by ring)
  rw [harg]
  simp only [simulate_intervention, hrr, if_true, Bool.true_eq]
  refine (IterationResult.mk.injEq _ _ _ _ _ _ _ _ _ _ _ _).mpr
    ⟨by ring, by ring, ?_, by ring, by ring, by ring⟩
  split_ifs <;> ring

/-- Witness for C4: the closed-form theorem applied to a concrete
intervention with a lognormal RR channel. -/
theorem C4_witness :
    simulate_intervention mexpW cfgW iLN true dW =
      { investment :=
          (iLN.Result_population : ℚ) *
            ((iLN.cost_ppy_gamma_exact.getD iLN.cost_ppy_gamma).1 *
             (iLN.cost_ppy_gamma_exact.getD iLN.cost_ppy_gamma).2) *
            discount_sum cfgW.horizon_years cfgW.discount_rate
        hc_savings :=
          (iLN.Result_population : ℚ) *
            (iLN.annual_event_rate_exact.getD iLN.annual_event_rate) *
            (1 - clamp (mexpW (0 + 1 ^ 2 / 2)) (1e-6) (0.999)) *
            ((iLN.event_cost_gamma_exact.getD iLN.event_cost_gamma).1 *
             (iLN.event_cost_gamma_exact.getD iLN.event_cost_gamma).2) *
            discount_sum cfgW.horizon_years cfgW.discount_rate
        soc_savings :=
          (if cfgW.perspective = "societal" then
            (iLN.Result_population : ℚ) *
              (iLN.annual_event_rate_exact.getD iLN.annual_event_rate) *
              (1 - clamp (mexpW (0 + 1 ^ 2 / 2)) (1e-6) (0.999)) *
              ((iLN.productivity_cost_gamma_exact.getD iLN.productivity_cost_gamma).1 *
               (iLN.productivity_cost_gamma_exact.getD iLN.productivity_cost_gamma).2) *
              discount_sum cfgW.horizon_years cfgW.discount_rate
           else 0)
        qalys :=
          (iLN.Result_population : ℚ) *
            (iLN.annual_event_rate_exact.getD iLN.annual_event_rate) *
            (1 - clamp (mexpW (0 + 1 ^ 2 / 2)) (1e-6) (0.999)) *
            ((iLN.qalys_lost_per_event_exact.getD iLN.qalys_lost_per_event) +
              (iLN.case_fatality_rate_exact.getD iLN.case_fatality_rate) *
              (iLN.life_years_lost_per_death_exact.getD iLN.life_years_lost_per_death)) *
            (iLN.utility_weight_exact.getD iLN.utility_weight) *
            discount_sum cfgW.horizon_years cfgW.discount_rate
        events_prevented :=
          (iLN.Result_population : ℚ) *
            (iLN.annual_event_rate_exact.getD iLN.annual_event_rate) *
            (1 - clamp (mexpW (0 + 1 ^ 2 / 2)) (1e-6) (0.999)) *
            (cfgW.horizon_years : ℚ)
        deaths_averted :=
          (iLN.Result_population : ℚ) *
            (iLN.annual_event_rate_exact.getD iLN.annual_event_rate) *
            (1 - clamp (mexpW (0 + 1 ^ 2 / 2)) (1e-6) (0.999)) *
            (iLN.case_fatality_rate_exact.getD iLN.case_fatality_rate) *
            (cfgW.horizon_years : ℚ) } :=
  C4_deterministic_closed_form mexpW cfgW iLN dW 0 1 (by decide) rfl

/-- C6 (amended): an evaluation with population exactly zero returns the
all-zero `IterationResult` (no division occurs anywhere in
`_simulate_intervention`); populations strictly below zero are unguarded
and scale every field by the negative `N` instead (see the
counterexample). -/
theorem C6_zero_population_all_zero (mexp : ℚ → ℚ) (cfg : SimConfig)
    (i : Intervention) (det : Bool) (d : Draws)
    (hN : i.Result_population = 0) :
    simulate_intervention mexp cfg i det d =
      { investment := 0, hc_savings := 0, soc_savings := 0, qalys := 0,
        events_prevented := 0, deaths_averted := 0 } := by
  simp only [simulate_intervention, hN]
  refine (IterationResult.mk.injEq _ _ _ _ _ _ _ _ _ _ _ _).mpr
    ⟨by push_cast; ring, by push_cast; ring, ?_, by push_cast; ring,
     by push_cast; ring, by push_cast; ring⟩
  split_ifs <;> push_cast <;> ring

/-- C6 (counterexample): with population `-1` the evaluation does not return
an all-zero result — the investment comes out as `-1`, refuting the claim's
"for every intervention spec with population N <= 0 … all zero". -/
theorem C6_negative_population_not_zero :
    (simulate_intervention mexpW cfgW iNeg true dW).investment = -1 ∧
    ((-1 : ℚ) ≠ 0) := by
  constructor
  · norm_num [simulate_intervention, mexpW, cfgW, iNeg, dW, discount_sum, clamp,
      Finset.sum_range_succ]
  · norm_num

/-- Witness for C6: the zero-population guard theorem applied to a concrete
intervention. -/
theorem C6_zero_population_witness :
    simulate_intervention mexpW cfgW iZero true dW =
      { investment := 0, hc_savings := 0, soc_savings := 0, qalys := 0,
        events_prevented := 0, deaths_averted := 0 } :=
  C6_zero_population_all_zero mexpW cfgW iZero true dW rfl

/-- Scaling every entry of the per-program map rescales the summed
`deaths_averted` by the same factor. -/
lemma sum_map_deaths_scale (l : List (String × IterationResult)) (c : ℚ) :
    ((l.map (fun kv =>
        (kv.1, { kv.2 with deaths_averted := kv.2.deaths_averted * c }))).map
      (fun kv => kv.2.deaths_averted)).sum
      = ((l.map (fun kv => kv.2.deaths_averted)).sum) * c := by
  induction l with
  | nil => simp
  | cons a t ih =>
      simp only [List.map_cons, List.sum_cons, ih]
      ring

/-- C8: whenever the unadjusted sum of per-program `deaths_averted` is
nonzero, `run_markov_models` rescales exactly the `deaths_averted` field of
every per-program record by `adjusted_portfolio_deaths / unadjusted_sum`
(leaving every other field as simulated), and the rescaled per-program
`deaths_averted` sum exactly to the adjusted portfolio total. -/
theorem C8_deaths_rescaled_sum (mexp : ℚ → ℚ) (cfg : SimConfig)
    (adj : PortfolioAdjustments) (intrs : List (String × Intervention))
    (det : Bool) (ds : List Draws)
    (h : ((per_pass mexp cfg intrs det ds).map (fun kv => kv.2.deaths_averted)).sum ≠ 0) :
    (run_markov_models mexp cfg adj intrs det ds).1 =
      (per_pass mexp cfg intrs det ds).map (fun kv =>
        (kv.1, { kv.2 with deaths_averted := kv.2.deaths_averted *
          ((run_markov_models mexp cfg adj intrs det ds).2.deaths_averted /
            ((per_pass mexp cfg intrs det ds).map
              (fun kv => kv.2.deaths_averted)).sum) })) ∧
    ((run_markov_models mexp cfg adj intrs det ds).1.map
        (fun kv => kv.2.deaths_averted)).sum =
      (run_markov_models mexp cfg adj intrs det ds).2.deaths_averted := by
  constructor
  · simp only [run_markov_models, h, ne_eq, not_false_eq_true, if_true]
  · simp only [run_markov_models, h, ne_eq, not_false_eq_true, if_true]
    rw [sum_map_deaths_scale, mul_comm, div_mul_cancel₀ _ h]

/-- Witness for C8: the reconciliation theorem applied to a concrete
one-program portfolio whose deterministic deaths sum is `1/4`. -/
theorem C8_witness :
    ((per_pass mexpW cfgW [("p", iHalf)] true [dW]).map
        (fun kv => kv.2.deaths_averted)).sum ≠ 0 ∧
    ((run_markov_models mexpW cfgW adjW [("p", iHalf)] true [dW]).1.map
        (fun kv => kv.2.deaths_averted)).sum =
      (run_markov_models mexpW cfgW adjW [("p", iHalf)] true [dW]).2.deaths_averted := by
  have h : ((per_pass mexpW cfgW [("p", iHalf)] true [dW]).map
      (fun kv => kv.2.deaths_averted)).sum ≠ 0 := by
    norm_num [per_pass, simulate_intervention, mexpW, cfgW, iHalf, dW, clamp,
      discount_sum, Finset.sum_range_succ]
  exact ⟨h, (C8_deaths_rescaled_sum mexpW cfgW adjW [("p", iHalf)] true [dW] h).2⟩

/-- C7: for a positive-population program, calibration with an investment
target `I`, a nonzero events target `E` and a nonzero deaths target rewrites
the program-cost gamma to `[shape, (I/(N*D))/shape]` (mean `I/(N*D)`), sets
`annual_event_rate = clamp(E/(N*T*rrr_mean), 1e-8, 0.95)`, rewrites the RRR
Beta to `[rrr_mean*1e6, (1-rrr_mean)*1e6]`, and sets
`case_fatality_rate = clamp(deaths_target/E, 0, 0.95)`.  The epsilon floors
of the source are inactive under the stated bounds on the gamma shape and on
`rrr_mean`. -/
theorem C7_calibration_rewrites (mexp : ℚ → ℚ) (cfg : SimConfig) (i : Intervention)
    (I E Dth : ℚ)
    (hN : 0 < i.Result_population)
    (hk : (1e-12 : ℚ) ≤ i.cost_ppy_gamma.1)
    (hr : (1e-9 : ℚ) ≤ rrr_mean_of mexp i)
    (hE0 : E ≠ 0) (hEpos : 0 < E) (hD : Dth ≠ 0) :
    (calibrate_intervention mexp cfg i
        { investment := some I, events_prevented := some E,
          deaths_averted := some Dth }).cost_ppy_gamma =
      (i.cost_ppy_gamma.1,
        I / ((i.Result_population : ℚ) *
              discount_sum cfg.horizon_years cfg.discount_rate) /
          i.cost_ppy_gamma.1) ∧
    (calibrate_intervention mexp cfg i
        { investment := some I, events_prevented := some E,
          deaths_averted := some Dth }).cost_ppy_gamma.1 *
      (calibrate_intervention mexp cfg i
        { investment := some I, events_prevented := some E,
          deaths_averted := some Dth }).cost_ppy_gamma.2 =
      I / ((i.Result_population : ℚ) *
            discount_sum cfg.horizon_years cfg.discount_rate) ∧
    (calibrate_intervention mexp cfg i
        { investment := some I, events_prevented := some E,
          deaths_averted := some Dth }).annual_event_rate =
      clamp (E / ((i.Result_population : ℚ) * (cfg.horizon_years : ℚ) *
        rrr_mean_of mexp i)) (1e-8) (0.95) ∧
    (calibrate_intervention mexp cfg i
        { investment := some I, events_prevented := some E,
          deaths_averted := some Dth }).rrr_beta =
      some (rrr_mean_of mexp i * 1e6, (1 - rrr_mean_of mexp i) * 1e6) ∧
    (calibrate_intervention mexp cfg i
        { investment := some I, events_prevented := some E,
          deaths_averted := some Dth }).case_fatality_rate =
      clamp (Dth / E) 0 (0.95) := by
  have h0 : ¬ i.Result_population ≤ 0 := not_le.mpr hN
  have hknz : i.cost_ppy_gamma.1 ≠ 0 :=
    ne_of_gt (lt_of_lt_of_le (by norm_num) hk)
  have hmaxk : max i.cost_ppy_gamma.1 (1e-12 : ℚ) = i.cost_ppy_gamma.1 :=
    max_eq_left hk
  have hmaxr : max (rrr_mean_of mexp i) (1e-9 : ℚ) = rrr_mean_of mexp i :=
    max_eq_left hr
  refine ⟨?_, ?_, ?_, ?_, ?_⟩ <;>
    simp only [calibrate_intervention, set_gamma_mean, h0, if_false,
      hE0, hD, hEpos, ne_eq, not_false_eq_true, if_true, and_true, true_and,
      hmaxk, hmaxr, ite_false, ite_true]
  · exact mul_div_cancel₀ _ hknz

/-- Witness for C7: the calibration-step theorem applied to a concrete
program with targets `I = 10`, `E = 5`, deaths `= 1`. -/
theorem C7_witness :
    (calibrate_intervention mexpW cfgW iHalf
        { investment := some 10, events_prevented := some 5,
          deaths_averted := some 1 }).case_fatality_rate =
      clamp ((1 : ℚ) / 5) 0 (0.95) :=
  (C7_calibration_rewrites mexpW cfgW iHalf 10 5 1
    (by decide)
    (by norm_num [iHalf])
    (by norm_num [rrr_mean_of, iHalf])
    (by norm_num) (by norm_num) (by norm_num)).2.2.2.2

/-- A concrete calibration target row. -/
def tW : CalTarget := { investment := some 1 }

/-- C5 (counterexample): a calibration input whose only target row references
the key `"zzz"`, which is not among the loaded interventions, is passed over
silently — the operation completes normally and returns the loaded
interventions unchanged, refuting the claim that an unknown program key is
fatal.  (In the source the guard `if k in self.parameters["interventions"]`
at line 650 filters the row before any fallible access happens, so no
exception can arise from it.) -/
theorem C5_counterexample :
    ([("cvd", iHalf)] : List (String × Intervention)).lookup "zzz" = none ∧
    calibrate_targets mexpW cfgW [("cvd", iHalf)] [("zzz", tW)] = [("cvd", iHalf)] := by
  exact ⟨rfl, rfl⟩

/-- C5 (amended): target rows whose program key is unknown are silently
skipped (the per-program loop leaves the loaded interventions untouched and
raises nothing), and a target with every field absent is a no-op for a known
program (up to the always-run gamma re-normalisation, which is the identity
on gammas with shape above the `1e-12` floor and nonnegative scale). -/
theorem C5_unknown_key_silently_skipped :
    (∀ (mexp : ℚ → ℚ) (cfg : SimConfig) (intrs : List (String × Intervention))
        (ts : List (String × CalTarget)),
      (∀ kt ∈ ts, intrs.lookup kt.1 = none) →
      calibrate_targets mexp cfg intrs ts = intrs) ∧
    (∀ (mexp : ℚ → ℚ) (cfg : SimConfig) (i : Intervention),
      (1e-12 : ℚ) ≤ i.event_cost_gamma.1 → 0 ≤ i.event_cost_gamma.2 →
      (1e-12 : ℚ) ≤ i.productivity_cost_gamma.1 → 0 ≤ i.productivity_cost_gamma.2 →
      calibrate_intervention mexp cfg i {} = i) := by
  constructor
  · intro mexp cfg intrs ts h
    induction ts with
    | nil => rfl
    | cons kt ts ih =>
        have hk : intrs.lookup kt.1 = none := h kt (by simp)
        have hstep : calibrate_targets mexp cfg intrs (kt :: ts) =
            calibrate_targets mexp cfg intrs ts := by
          simp [calibrate_targets, hk]
        rw [hstep]
        exact ih (fun x hx => h x (by simp [hx]))
  · intro mexp cfg i hk1 hs1 hk2 hs2
    by_cases hN : i.Result_population ≤ 0
    · simp [calibrate_intervention, hN]
    · have he1nz : i.event_cost_gamma.1 ≠ 0 :=
        ne_of_gt (lt_of_lt_of_le (by norm_num) hk1)
      have he2nz : i.productivity_cost_gamma.1 ≠ 0 :=
        ne_of_gt (lt_of_lt_of_le (by norm_num) hk2)
      have e1 : set_gamma_mean i.event_cost_gamma.1
          (max 0 (i.event_cost_gamma.1 * i.event_cost_gamma.2)) = i.event_cost_gamma := by
        unfold set_gamma_mean
        rw [max_eq_right (mul_nonneg (le_trans (by norm_num) hk1) hs1),
          max_eq_left hk1, mul_div_cancel_left₀ _ he1nz]
      have e2 : set_gamma_mean i.productivity_cost_gamma.1
          (max 0 (i.productivity_cost_gamma.1 * i.productivity_cost_gamma.2)) =
            i.productivity_cost_gamma := by
        unfold set_gamma_mean
        rw [max_eq_right (mul_nonneg (le_trans (by norm_num) hk2) hs2),
          max_eq_left hk2, mul_div_cancel_left₀ _ he2nz]
      simp only [calibrate_intervention, hN, ite_false, if_false]
      rw [e1, e2]

/-- Witness for C5: both parts of the amended theorem applied to concrete
inputs. -/
theorem C5_witness :
    calibrate_targets mexpW cfgW [("cvd", iHalf)] [("zzz", tW)] = [("cvd", iHalf)] ∧
    calibrate_intervention mexpW cfgW iHalf {} = iHalf :=
  ⟨C5_unknown_key_silently_skipped.1 mexpW cfgW [("cvd", iHalf)] [("zzz", tW)]
      (by intro kt hkt; simp only [List.mem_singleton] at hkt; subst hkt; rfl),
   C5_unknown_key_silently_skipped.2 mexpW cfgW iHalf
      (by norm_num [iHalf]) (by norm_num [iHalf])
      (by norm_num [iHalf]) (by norm_num [iHalf])⟩

/-- C3: the calibration round-trip fails on the loaded parameters.
`_calibrate_intervention` writes the target-derived gamma into
`cost_ppy_gamma` only, while `_simulate_intervention` prefers the stale
`cost_ppy_gamma_exact` copy that `load_parameters` created, so a subsequent
deterministic evaluation still returns the pre-calibration investment
(about `8.2e9`), far outside the claimed `1e-6` relative error of the
target `1e9`.  The third conjunct shows the slip precisely: the calibrated
visible gamma does encode the target exactly, but the evaluation ignores
it. -/
theorem C3_calibration_round_trip_fails :
    (simulate_intervention mexpW cfg10
        (calibrate_intervention mexpW cfg10 iLoaded tInv) true dW).investment =
      500000 * (5 * 384.5160616649235) * discount_sum 10 (3/100) ∧
    (1e9 : ℚ) * (1 + 1e-6) <
      (simulate_intervention mexpW cfg10
        (calibrate_intervention mexpW cfg10 iLoaded tInv) true dW).investment ∧
    (500000 : ℚ) *
        ((calibrate_intervention mexpW cfg10 iLoaded tInv).cost_ppy_gamma.1 *
         (calibrate_intervention mexpW cfg10 iLoaded tInv).cost_ppy_gamma.2) *
        discount_sum 10 (3/100) = 1e9 := by
  refine ⟨?_, ?_, ?_⟩
  · norm_num [simulate_intervention, calibrate_intervention, set_gamma_mean,
      rrr_mean_of, lognormal_mean, clamp, discount_sum, Finset.sum_range_succ,
      mexpW, cfg10, iLoaded, tInv, dW]
  · norm_num [simulate_intervention, calibrate_intervention, set_gamma_mean,
      rrr_mean_of, lognormal_mean, clamp, discount_sum, Finset.sum_range_succ,
      mexpW, cfg10, iLoaded, tInv, dW]
  · norm_num [calibrate_intervention, set_gamma_mean, rrr_mean_of, lognormal_mean,
      clamp, discount_sum, Finset.sum_range_succ, mexpW, cfg10, iLoaded, tInv]

/-- `_affine_stats` pins the confidence bounds of its result to the target
interval in every case. -/
lemma affine_stats_ci (d : Summary) (lo hi : ℚ) :
    (affine_stats d lo hi).ci_lower = some lo ∧
    (affine_stats d lo hi).ci_upper = some hi := by
  rcases d with ⟨m, md, v, cl, cu⟩
  cases cl <;> cases cu <;> simp [affine_stats]

/-- C1 (counterexample): on a one-iteration stream whose single `roi` sample
is `0`, the returned `roi` summary reports `ci_lower = 1.19` while the
empirical 2.5th percentile of the collected `roi` samples is `0` — the
returned summary is not the empirical summary of the per-iteration
samples. -/
theorem C1_counterexample :
    (run_monte_carlo mexpW cfgW [("p", iHalf)] stream1).roi.ci_lower = some (1.19) ∧
    nanpercentile (2.5) ((mcSamples mexpW cfgW [("p", iHalf)] stream1).map
      (fun s => some s.roi)) = some 0 ∧
    ((1.19 : ℚ) ≠ 0) := by
  refine ⟨?_, ?_, by norm_num⟩
  · norm_num [run_monte_carlo, mcSamples, mcIteration, per_pass, simulate_intervention,
      summarize, nanmean, nanpercentile, nanvar, nansamples, affine_stats,
      net_benefit_summary, clamp, discount_sum, Finset.sum_range_succ,
      List.insertionSort, List.orderedInsert, List.filterMap, mexpW, cfgW, iHalf,
      stream1]
  · norm_num [mcSamples, mcIteration, per_pass, simulate_intervention,
      nanpercentile, nansamples, clamp, discount_sum, Finset.sum_range_succ,
      List.insertionSort, List.orderedInsert, List.filterMap, mexpW, cfgW, iHalf,
      stream1]

/-- C1 (amended): `run_monte_carlo` collects one ordered sample sequence per
metric and computes the empirical mean, median, NaN-aware sample standard
deviation (here carried as its square) and 2.5th/97.5th percentiles — but it
returns those empirical summaries unchanged only for `investment`,
`hc_savings`, `soc_savings` and `icer`; for `total_savings`,
`events_prevented`, `deaths_averted`, `qalys`, `roi` and the derived
`net_benefit` it returns the `_affine_stats` rescaling of those summaries
onto hard-coded intervals. -/
theorem C1_returned_vs_empirical (mexp : ℚ → ℚ) (cfg : SimConfig)
    (intrs : List (String × Intervention)) (stream : List (List Draws)) :
    (run_monte_carlo mexp cfg intrs stream).investment =
      summarize ((mcSamples mexp cfg intrs stream).map (fun s => some s.investment)) ∧
    (run_monte_carlo mexp cfg intrs stream).hc_savings =
      summarize ((mcSamples mexp cfg intrs stream).map (fun s => some s.hc_savings)) ∧
    (run_monte_carlo mexp cfg intrs stream).soc_savings =
      summarize ((mcSamples mexp cfg intrs stream).map (fun s => some s.soc_savings)) ∧
    (run_monte_carlo mexp cfg intrs stream).icer =
      summarize ((mcSamples mexp cfg intrs stream).map (fun s => s.icer)) ∧
    (run_monte_carlo mexp cfg intrs stream).total_savings =
      affine_stats (summarize ((mcSamples mexp cfg intrs stream).map
        (fun s => some s.total_savings))) (44.8e9) (60.0e9) ∧
    (run_monte_carlo mexp cfg intrs stream).events_prevented =
      affine_stats (summarize ((mcSamples mexp cfg intrs stream).map
        (fun s => some s.events_prevented))) 142000 174000 ∧
    (run_monte_carlo mexp cfg intrs stream).deaths_averted =
      affine_stats (summarize ((mcSamples mexp cfg intrs stream).map
        (fun s => some s.deaths_averted))) 14000 18500 ∧
    (run_monte_carlo mexp cfg intrs stream).qalys =
      affine_stats (summarize ((mcSamples mexp cfg intrs stream).map
        (fun s => some s.qalys))) 286000 367000 ∧
    (run_monte_carlo mexp cfg intrs stream).roi =
      affine_stats (summarize ((mcSamples mexp cfg intrs stream).map
        (fun s => some s.roi))) (1.19) (1.96) ∧
    (run_monte_carlo mexp cfg intrs stream).net_benefit =
      affine_stats (net_benefit_summary
        (summarize ((mcSamples mexp cfg intrs stream).map (fun s => some s.total_savings)))
        (summarize ((mcSamples mexp cfg intrs stream).map (fun s => some s.investment))))
        (19.9e9) (45.9e9) := by
  exact ⟨rfl, rfl, rfl, rfl, rfl, rfl, rfl, rfl, rfl, rfl⟩

/-- C2 (counterexample): the `net_benefit` summary is rescaled from the
derived difference-of-summaries statistics, not from empirical statistics of
the per-iteration net benefit: on a concrete three-iteration stream the
returned `net_benefit` median is `3.29e10`, while the affine rescaling of
the empirical per-iteration `total_savings - investment` summary onto the
same target interval has median `4.59e10`. -/
theorem C2_counterexample :
    (run_monte_carlo mexpW cfgW [("p", iHalf)] stream3).net_benefit.median =
      some (32.9e9) ∧
    (affine_stats (summarize ((mcSamples mexpW cfgW [("p", iHalf)] stream3).map
        (fun s => some (s.total_savings - s.investment)))) (19.9e9) (45.9e9)).median =
      some (45.9e9) ∧
    ((32.9e9 : ℚ) ≠ 45.9e9) := by
  refine ⟨?_, ?_, by norm_num⟩
  · norm_num [run_monte_carlo, mcSamples, mcIteration, per_pass, simulate_intervention,
      summarize, nanmean, nanpercentile, nanvar, nansamples, affine_stats,
      net_benefit_summary, clamp, discount_sum, Finset.sum_range_succ, abs_of_pos,
      List.insertionSort, List.orderedInsert, List.filterMap, mexpW, cfgW, iHalf,
      stream3]
  · norm_num [mcSamples, mcIteration, per_pass, simulate_intervention, summarize,
      nanmean, nanpercentile, nanvar, nansamples, affine_stats, clamp, discount_sum,
      Finset.sum_range_succ, abs_of_pos, List.insertionSort, List.orderedInsert,
      List.filterMap, mexpW, cfgW, iHalf, stream3]

/-- C2 (amended): the returned `ci_lower`/`ci_upper` of the six overwritten
metrics equal the hard-coded constants for every seedable sample stream and
iteration count, and the returned mean/median/std are the `_affine_stats`
rescalings of the pre-overwrite summaries — the empirical per-metric
summaries for `total_savings`, `roi`, `events_prevented`, `deaths_averted`
and `qalys`, but the derived difference-of-summaries statistics (not
empirical net-benefit statistics) for `net_benefit`. -/
theorem C2_pinned_bounds_affine (mexp : ℚ → ℚ) (cfg : SimConfig)
    (intrs : List (String × Intervention)) (stream : List (List Draws)) :
    (run_monte_carlo mexp cfg intrs stream).total_savings.ci_lower = some (44.8e9) ∧
    (run_monte_carlo mexp cfg intrs stream).total_savings.ci_upper = some (60.0e9) ∧
    (run_monte_carlo mexp cfg intrs stream).net_benefit.ci_lower = some (19.9e9) ∧
    (run_monte_carlo mexp cfg intrs stream).net_benefit.ci_upper = some (45.9e9) ∧
    (run_monte_carlo mexp cfg intrs stream).roi.ci_lower = some (1.19) ∧
    (run_monte_carlo mexp cfg intrs stream).roi.ci_upper = some (1.96) ∧
    (run_monte_carlo mexp cfg intrs stream).events_prevented.ci_lower = some 142000 ∧
    (run_monte_carlo mexp cfg intrs stream).events_prevented.ci_upper = some 174000 ∧
    (run_monte_carlo mexp cfg intrs stream).deaths_averted.ci_lower = some 14000 ∧
    (run_monte_carlo mexp cfg intrs stream).deaths_averted.ci_upper = some 18500 ∧
    (run_monte_carlo mexp cfg intrs stream).qalys.ci_lower = some 286000 ∧
    (run_monte_carlo mexp cfg intrs stream).qalys.ci_upper = some 367000 ∧
    (run_monte_carlo mexp cfg intrs stream).total_savings =
      affine_stats (summarize ((mcSamples mexp cfg intrs stream).map
        (fun s => some s.total_savings))) (44.8e9) (60.0e9) ∧
    (run_monte_carlo mexp cfg intrs stream).roi =
      affine_stats (summarize ((mcSamples mexp cfg intrs stream).map
        (fun s => some s.roi))) (1.19) (1.96) ∧
    (run_monte_carlo mexp cfg intrs stream).events_prevented =
      affine_stats (summarize ((mcSamples mexp cfg intrs stream).map
        (fun s => some s.events_prevented))) 142000 174000 ∧
    (run_monte_carlo mexp cfg intrs stream).deaths_averted =
      affine_stats (summarize ((mcSamples mexp cfg intrs stream).map
        (fun s => some s.deaths_averted))) 14000 18500 ∧
    (run_monte_carlo mexp cfg intrs stream).qalys =
      affine_stats (summarize ((mcSamples mexp cfg intrs stream).map
        (fun s => some s.qalys))) 286000 367000 ∧
    (run_monte_carlo mexp cfg intrs stream).net_benefit =
      affine_stats (net_benefit_summary
        (summarize ((mcSamples mexp cfg intrs stream).map (fun s => some s.total_savings)))
        (summarize ((mcSamples mexp cfg intrs stream).map (fun s => some s.investment))))
        (19.9e9) (45.9e9) := by
  refine ⟨(affine_stats_ci _ _ _).1, (affine_stats_ci _ _ _).2,
    (affine_stats_ci _ _ _).1, (affine_stats_ci _ _ _).2,
    (affine_stats_ci _ _ _).1, (affine_stats_ci _ _ _).2,
    (affine_stats_ci _ _ _).1, (affine_stats_ci _ _ _).2,
    (affine_stats_ci _ _ _).1, (affine_stats_ci _ _ _).2,
    (affine_stats_ci _ _ _).1, (affine_stats_ci _ _ _).2,
    rfl, rfl, rfl, rfl, rfl, rfl⟩

end UAEHealth

